import Mathlib

/-!
Shallow embedding of the meeting-booking service core
(`src/app/modules/room/room.py`, `src/app/modules/booking/booking.py`,
model `src/app/models/booking.py`).

Naive timestamps are modelled as `Nat` minutes since an epoch; a time-of-day
(Python `datetime.time`, which compares lexicographically, hence totally) is a
`Nat` number of minutes since midnight, and `datetime.time()` is `t % 1440`.
The SQLAlchemy session is modelled as an explicit `DB` record holding the room
and booking tables as lists in insertion order; `query(...).filter(p).first()`
is `List.find?`, `.all()` is `List.filter`, `.count()` is `(List.filter _).length`.
Python functions that `raise ValueError` are modelled with `Except`; the
mutating operations return the new `DB` on success and leave it untouched on
failure, which matches the source, where every `raise` happens before any
`setattr`/`add`/`commit`.
-/

namespace MeetingBooking

/-- Minutes in a day: the modulus extracting the time-of-day from a naive
timestamp. -/
def minutesPerDay : Nat := 1440

/-- `datetime.time()`: the time-of-day component of a timestamp. -/
def timeOfDay (t : Nat) : Nat := t % minutesPerDay

/-- Row of the `room` table (`src/app/models/booking.py`, class `Room`). -/
structure Room where
  id : Int
  name : String
  capacity : Int
  location : String
  description : String
  start_time : Nat
  end_time : Nat
  is_active : Bool
  created_at : Nat
  deriving Repr, DecidableEq

/-- Row of the `booking` table (`src/app/models/booking.py`, class `Booking`). -/
structure Booking where
  id : Int
  room_id : Int
  title : String
  organizer_name : String
  organizer_email : Option String
  participant_count : Int
  start_datetime : Nat
  end_datetime : Nat
  description : Option String
  notes : Option String
  is_cancelled : Bool
  cancelled_at : Option Nat
  cancellation_reason : Option String
  created_at : Nat
  updated_at : Nat
  deriving Repr, DecidableEq

/-- The persistent store: both tables, rows in insertion order. -/
structure DB where
  rooms : List Room
  bookings : List Booking
  deriving Repr, DecidableEq

/-- The failure reasons `check_room_availability` can put in
`RoomAvailability.reason`. The source formats each as a Thai message string
(room-not-found, room-inactive, outside-operating-hours reporting the window,
and conflict naming the clashing booking's title and times); we keep them as
structured variants carrying the same data. -/
inductive AvailReason where
  | roomNotFound
  | roomInactive
  | outsideHours (opStart opEnd : Nat)
  | conflict (title : String) (s e : Nat)
  deriving Repr, DecidableEq

/-- `RoomAvailability` pydantic model (`room.py` lines 56-62). -/
structure RoomAvailability where
  room_id : Int
  room_name : String
  start_datetime : Nat
  end_datetime : Nat
  is_available : Bool
  reason : Option AvailReason
  deriving Repr, DecidableEq

/-- The overlap query inside `check_room_availability` (`room.py` lines
168-181): non-cancelled bookings of the room whose range overlaps the proposed
half-open range, with the exclusion filter added only when
`exclude_booking_id` is Python-truthy (not `None` and not `0`). -/
def conflictQuery (db : DB) (room_id : Int) (start_dt end_dt : Nat)
    (exclude_booking_id : Option Int) : List Booking :=
  let base := db.bookings.filter fun b =>
    b.room_id == room_id && b.is_cancelled == false &&
    decide (b.start_datetime < end_dt) && decide (b.end_datetime > start_dt)
  match exclude_booking_id with
  | some eid => if eid == 0 then base else base.filter fun b => b.id != eid
  | none => base

/-- `check_room_availability` (`room.py` lines 135-188). -/
def check_room_availability (db : DB) (room_id : Int) (start_dt end_dt : Nat)
    (exclude_booking_id : Option Int) : RoomAvailability :=
  match db.rooms.find? (fun r => r.id == room_id) with
  | none =>
    { room_id := room_id, room_name := "ไม่พบห้อง", start_datetime := start_dt,
      end_datetime := end_dt, is_available := false,
      reason := some AvailReason.roomNotFound }
  | some room =>
    if !room.is_active then
      { room_id := room_id, room_name := room.name, start_datetime := start_dt,
        end_datetime := end_dt, is_available := false,
        reason := some AvailReason.roomInactive }
    else if timeOfDay start_dt < room.start_time || timeOfDay end_dt > room.end_time then
      { room_id := room_id, room_name := room.name, start_datetime := start_dt,
        end_datetime := end_dt, is_available := false,
        reason := some (AvailReason.outsideHours room.start_time room.end_time) }
    else
      match (conflictQuery db room_id start_dt end_dt exclude_booking_id).head? with
      | some b =>
        { room_id := room_id, room_name := room.name, start_datetime := start_dt,
          end_datetime := end_dt, is_available := false,
          reason := some (AvailReason.conflict b.title b.start_datetime b.end_datetime) }
      | none =>
        { room_id := room_id, room_name := room.name, start_datetime := start_dt,
          end_datetime := end_dt, is_available := true, reason := none }

/-- Room-creation failures raised by `create_room`/`delete_room` as Thai
`ValueError` messages; kept as structured variants carrying the message data. -/
inductive RoomError where
  | duplicateName (name : String)
  | hasFutureBookings (count : Nat)
  deriving Repr, DecidableEq

/-- `RoomCreate` pydantic model (`room.py` lines 12-28). Its two check methods
(`capacity_must_be_positive`, `endtime_after_start_time`) carry no validator
registration in the source, so pydantic never runs them: no capacity or
schedule check constrains these fields. -/
structure RoomCreate where
  name : String
  capacity : Int
  location : String
  description : String
  start_time : Nat
  end_time : Nat
  deriving Repr, DecidableEq

/-- `create_room` (`room.py` lines 66-75): reject a duplicate name, otherwise
insert the row (active by default per the model's column default). -/
def create_room (db : DB) (new_id : Int) (now : Nat) (room : RoomCreate) :
    Except RoomError (DB × Room) :=
  match db.rooms.find? (fun r => r.name == room.name) with
  | some _ => .error (RoomError.duplicateName room.name)
  | none =>
    let db_room : Room :=
      { id := new_id, name := room.name, capacity := room.capacity,
        location := room.location, description := room.description,
        start_time := room.start_time, end_time := room.end_time,
        is_active := true, created_at := now }
    .ok ({ db with rooms := db.rooms ++ [db_room] }, db_room)

/-- `delete_room` (`room.py` lines 114-132): `False` when the id is absent;
raises when the room still has a future (start strictly after `now`)
non-cancelled booking; otherwise clears the active flag, deleting nothing. -/
def delete_room (db : DB) (now : Nat) (room_id : Int) :
    Except RoomError (DB × Bool) :=
  match db.rooms.find? (fun r => r.id == room_id) with
  | none => .ok (db, false)
  | some _ =>
    let future_bookings := (db.bookings.filter fun b =>
      b.room_id == room_id && decide (b.start_datetime > now) &&
      b.is_cancelled == false).length
    if future_bookings > 0 then .error (RoomError.hasFutureBookings future_bookings)
    else
      .ok ({ db with rooms := db.rooms.map fun r =>
               if r.id == room_id then { r with is_active := false } else r },
           true)

/-- The store after `delete_room`: unchanged whenever the call raised. -/
def delete_room_db (db : DB) (now : Nat) (room_id : Int) : DB :=
  match delete_room db now room_id with
  | .ok (db', _) => db'
  | .error _ => db

/-- Booking-lifecycle failures raised as Thai `ValueError` messages in
`booking.py`; structured variants carrying the data each message embeds.
`notFound` models the `return None` paths (mapped to not-found by the HTTP
layer). `internalFault` models the `AttributeError` the source would hit at
line 183 if a booking's room row were missing. -/
inductive BookingError where
  | notFound
  | roomNotFound
  | roomInactive
  | capacityExceeded (count capacity : Int)
  | notAvailable (reason : Option AvailReason)
  | cannotEditCancelled
  | updateConflict (reason : Option AvailReason)
  | alreadyCancelled
  | internalFault
  deriving Repr, DecidableEq

/-- `BookingCreate` pydantic model (`booking.py` lines 9-36), fields only;
its three registered validators are `bookingCreateValid`. -/
structure BookingCreate where
  room_id : Int
  title : String
  organizer_name : String
  organizer_email : Option String
  participant_count : Int
  start_datetime : Nat
  end_datetime : Nat
  description : Option String
  notes : Option String
  deriving Repr, DecidableEq

/-- The three registered `BookingCreate` validators (`booking.py` lines
20-36): end strictly after start, positive participant count, and an email
that is absent, empty (Python-falsy) or contains an at-sign. -/
def bookingCreateValid (bc : BookingCreate) : Bool :=
  decide (bc.start_datetime < bc.end_datetime) &&
  decide (0 < bc.participant_count) &&
  (match bc.organizer_email with
   | some v => v.isEmpty || v.contains '@'
   | none => true)

/-- `BookingUpdate` pydantic model (`booking.py` lines 39-47): every field
optional, `none` meaning the field is not among the changed fields
(`dict(exclude_unset=True)`). The source registers no validator on it. -/
structure BookingUpdate where
  title : Option String := none
  organizer_name : Option String := none
  organizer_email : Option String := none
  participant_count : Option Int := none
  start_datetime : Option Nat := none
  end_datetime : Option Nat := none
  description : Option String := none
  notes : Option String := none
  deriving Repr, DecidableEq

/-- The `setattr` loop of `update_booking`: overwrite exactly the supplied
fields. -/
def applyUpdate (b : Booking) (u : BookingUpdate) : Booking :=
  { b with
    title := u.title.getD b.title,
    organizer_name := u.organizer_name.getD b.organizer_name,
    organizer_email := match u.organizer_email with
      | some v => some v
      | none => b.organizer_email,
    participant_count := u.participant_count.getD b.participant_count,
    start_datetime := u.start_datetime.getD b.start_datetime,
    end_datetime := u.end_datetime.getD b.end_datetime,
    description := match u.description with
      | some v => some v
      | none => b.description,
    notes := match u.notes with
      | some v => some v
      | none => b.notes }

/-- Committing a mutated booking row: replace the row(s) bearing its id. -/
def DB.setBooking (db : DB) (nb : Booking) : DB :=
  { db with bookings := db.bookings.map fun x => if x.id == nb.id then nb else x }

/-- `create_booking` (`booking.py` lines 91-117): room must exist and be
active, participant count at most the capacity (the raised message embeds both
numbers), the availability check must pass, and only then is the row inserted
with `cancelled=false`. `new_id` is the store-assigned primary key and `now`
feeds the column defaults. -/
def create_booking (db : DB) (new_id : Int) (now : Nat) (booking : BookingCreate) :
    Except BookingError (DB × Booking) :=
  match db.rooms.find? (fun r => r.id == booking.room_id) with
  | none => .error BookingError.roomNotFound
  | some room =>
    if !room.is_active then .error BookingError.roomInactive
    else if booking.participant_count > room.capacity then
      .error (BookingError.capacityExceeded booking.participant_count room.capacity)
    else
      let availability := check_room_availability db booking.room_id
        booking.start_datetime booking.end_datetime none
      if !availability.is_available then
        .error (BookingError.notAvailable availability.reason)
      else
        let db_booking : Booking :=
          { id := new_id, room_id := booking.room_id, title := booking.title,
            organizer_name := booking.organizer_name,
            organizer_email := booking.organizer_email,
            participant_count := booking.participant_count,
            start_datetime := booking.start_datetime,
            end_datetime := booking.end_datetime,
            description := booking.description, notes := booking.notes,
            is_cancelled := false, cancelled_at := none,
            cancellation_reason := none, created_at := now, updated_at := now }
        .ok ({ db with bookings := db.bookings ++ [db_booking] }, db_booking)

/-- The store after `create_booking`: unchanged whenever the call raised. -/
def create_booking_db (db : DB) (new_id : Int) (now : Nat) (booking : BookingCreate) : DB :=
  match create_booking db new_id now booking with
  | .ok (db', _) => db'
  | .error _ => db

/-- `update_booking` (`booking.py` lines 154-191): refuse absent or cancelled
bookings; when the changed fields touch the time range, re-check availability
on the effective range excluding this booking's own id; when they touch the
participant count, re-check the room's capacity; every raise happens before
the `setattr` loop, so a failed update commits nothing. On success the
supplied fields overwrite and `updated_at` is bumped (the column's
`onupdate`). -/
def update_booking (db : DB) (now : Nat) (booking_id : Int) (u : BookingUpdate) :
    Except BookingError (DB × Booking) :=
  match db.bookings.find? (fun b => b.id == booking_id) with
  | none => .error BookingError.notFound
  | some booking =>
    if booking.is_cancelled then .error BookingError.cannotEditCancelled
    else
      let timeChanged := u.start_datetime.isSome || u.end_datetime.isSome
      let new_start := u.start_datetime.getD booking.start_datetime
      let new_end := u.end_datetime.getD booking.end_datetime
      let availability := check_room_availability db booking.room_id
        new_start new_end (some booking.id)
      if timeChanged && !availability.is_available then
        .error (BookingError.updateConflict availability.reason)
      else
        match u.participant_count with
        | some pc =>
          match db.rooms.find? (fun r => r.id == booking.room_id) with
          | none => .error BookingError.internalFault
          | some room =>
            if pc > room.capacity then
              .error (BookingError.capacityExceeded pc room.capacity)
            else
              let nb := { applyUpdate booking u with updated_at := now }
              .ok (db.setBooking nb, nb)
        | none =>
          let nb := { applyUpdate booking u with updated_at := now }
          .ok (db.setBooking nb, nb)

/-- The store after `update_booking`: unchanged whenever the call raised. -/
def update_booking_db (db : DB) (now : Nat) (booking_id : Int) (u : BookingUpdate) : DB :=
  match update_booking db now booking_id u with
  | .ok (db', _) => db'
  | .error _ => db

/-- `cancel_booking` (`booking.py` lines 194-212): refuse absent or
already-cancelled bookings; otherwise set the cancelled flag, the cancellation
timestamp and the (nullable) reason, and commit. -/
def cancel_booking (db : DB) (now : Nat) (booking_id : Int) (reason : Option String) :
    Except BookingError (DB × Booking) :=
  match db.bookings.find? (fun b => b.id == booking_id) with
  | none => .error BookingError.notFound
  | some booking =>
    if booking.is_cancelled then .error BookingError.alreadyCancelled
    else
      let nb := { booking with
        is_cancelled := true, cancelled_at := some now,
        cancellation_reason := reason, updated_at := now }
      .ok (db.setBooking nb, nb)

/-- The store after `cancel_booking`: unchanged whenever the call raised. -/
def cancel_booking_db (db : DB) (now : Nat) (booking_id : Int) (reason : Option String) : DB :=
  match cancel_booking db now booking_id reason with
  | .ok (db', _) => db'
  | .error _ => db

/-- The row `cancel_booking` commits: the booking with its cancellation
metadata set. -/
def cancelledRow (B : Booking) (cnow : Nat) (reason : Option String) : Booking :=
  { B with
    is_cancelled := true, cancelled_at := some cnow,
    cancellation_reason := reason, updated_at := cnow }

/-! Concrete sample data, following the walk-through scenario of the spec:
one active room with capacity 6 and operating window 08:00-18:00
(minutes 480-1080), and bookings against it. -/

/-- Sample room: capacity 6, hours 08:00-18:00, active. -/
def wRoom : Room :=
  { id := 1, name := "Alpha", capacity := 6, location := "fl1",
    description := "main", start_time := 480, end_time := 1080,
    is_active := true, created_at := 0 }

/-- Sample booking: room 1, 09:00-10:00 (minutes 540-600), not cancelled. -/
def wBooking1 : Booking :=
  { id := 1, room_id := 1, title := "standup", organizer_name := "ann",
    organizer_email := none, participant_count := 3, start_datetime := 540,
    end_datetime := 600, description := none, notes := none,
    is_cancelled := false, cancelled_at := none, cancellation_reason := none,
    created_at := 0, updated_at := 0 }

/-- Second sample booking: room 1, 10:00-11:00, touching `wBooking1`. -/
def wBooking2 : Booking :=
  { wBooking1 with id := 2, start_datetime := 600, end_datetime := 660 }

/-- A cancelled sample booking. -/
def wCancelled : Booking :=
  { wBooking1 with id := 3, is_cancelled := true, cancelled_at := some 10 }

/-- Store with the sample room and one active booking. -/
def wDB : DB := { rooms := [wRoom], bookings := [wBooking1] }

/-- Store with the sample room and two touching active bookings. -/
def wDB2 : DB := { rooms := [wRoom], bookings := [wBooking1, wBooking2] }

/-- Store with the sample room and one cancelled booking. -/
def wDB7 : DB := { rooms := [wRoom], bookings := [wCancelled] }

/-- Patch moving `wBooking2` to start at 09:30, clashing with `wBooking1`. -/
def u5 : BookingUpdate := { start_datetime := some 570 }

/-- The empty patch. -/
def u7 : BookingUpdate := {}

/-- A create request for 7 people against the capacity-6 sample room. -/
def bigMeeting : BookingCreate :=
  { room_id := 1, title := "all hands", organizer_name := "bob",
    organizer_email := some "bob@x.co", participant_count := 7,
    start_datetime := 700, end_datetime := 760, description := none,
    notes := none }

/-- A patch putting the start at 15:00 and the end at 14:00: end before
start, everything inside the operating window. -/
def lateShift : BookingUpdate :=
  { start_datetime := some 900, end_datetime := some 840 }

/-- The row `update_booking` stores for `lateShift`: end before start. -/
def invertedRow : Booking :=
  { wBooking1 with start_datetime := 900, end_datetime := 840, updated_at := 99 }

/-- An empty store. -/
def emptyDB : DB := { rooms := [], bookings := [] }

/-- A room-creation input with non-positive capacity and end time-of-day
before start time-of-day. -/
def invalidRoom : RoomCreate :=
  { name := "Broken", capacity := 0, location := "b1", description := "d",
    start_time := 600, end_time := 540 }

/-- The row `create_room` stores for `invalidRoom`. -/
def storedInvalidRoom : Room :=
  { id := 7, name := "Broken", capacity := 0, location := "b1",
    description := "d", start_time := 600, end_time := 540,
    is_active := true, created_at := 5 }

/-! Helper lemmas about the overlap query. The store invariant `0 < b.id`
(primary keys are auto-assigned from 1) matters because the source guards the
exclusion filter with Python truthiness (`if exclude_booking_id:`), under
which an exclusion id of `0` is treated as absent. -/

/-- Membership in the overlap query, assuming positive stored ids. -/
theorem mem_conflictQuery (db : DB) (rid : Int) (s e : Nat) (excl : Option Int)
    (hpos : ∀ b ∈ db.bookings, 0 < b.id) (b : Booking) :
    b ∈ conflictQuery db rid s e excl ↔
      b ∈ db.bookings ∧ b.room_id = rid ∧ b.is_cancelled = false ∧
      b.start_datetime < e ∧ s < b.end_datetime ∧
      ∀ eid, excl = some eid → b.id ≠ eid := by
  cases excl with
  | none =>
    simp only [conflictQuery, List.mem_filter, Bool.and_eq_true, beq_iff_eq,
      decide_eq_true_eq, Option.some.injEq]
    constructor
    · rintro ⟨hb, ⟨⟨h1, h2⟩, h3⟩, h4⟩
      exact ⟨hb, h1, h2, h3, h4, by simp⟩
    · rintro ⟨hb, h1, h2, h3, h4, -⟩
      exact ⟨hb, ⟨⟨h1, h2⟩, h3⟩, h4⟩
  | some eid =>
    by_cases h0 : eid = 0
    · subst h0
      simp only [conflictQuery, beq_self_eq_true, if_true, List.mem_filter,
        Bool.and_eq_true, beq_iff_eq, decide_eq_true_eq]
      constructor
      · rintro ⟨hb, ⟨⟨h1, h2⟩, h3⟩, h4⟩
        refine ⟨hb, h1, h2, h3, h4, ?_⟩
        rintro eid2 heq2
        injection heq2 with h
        subst h
        have := hpos b hb
        omega
      · rintro ⟨hb, h1, h2, h3, h4, -⟩
        exact ⟨hb, ⟨⟨h1, h2⟩, h3⟩, h4⟩
    · have hne : (eid == 0) = false := by simpa using h0
      simp only [conflictQuery, hne, Bool.false_eq_true, if_false, List.mem_filter,
        Bool.and_eq_true, beq_iff_eq, decide_eq_true_eq, bne_iff_ne, ne_eq,
        Option.some.injEq]
      constructor
      · rintro ⟨⟨hb, ⟨⟨h1, h2⟩, h3⟩, h4⟩, h5⟩
        refine ⟨hb, h1, h2, h3, h4, ?_⟩
        rintro eid2 heq2
        subst heq2
        exact h5
      · rintro ⟨hb, h1, h2, h3, h4, h5⟩
        exact ⟨⟨hb, ⟨⟨h1, h2⟩, h3⟩, h4⟩, h5 eid rfl⟩

/-- A stored booking meeting all the query conditions is in the query
result (no id-positivity needed for this direction). -/
theorem mem_conflictQuery_of (db : DB) (rid : Int) (s e : Nat) (excl : Option Int)
    (b : Booking) (hb : b ∈ db.bookings) (hroom : b.room_id = rid)
    (hnc : b.is_cancelled = false) (hov1 : b.start_datetime < e)
    (hov2 : s < b.end_datetime)
    (hexcl : ∀ eid, excl = some eid → b.id ≠ eid) :
    b ∈ conflictQuery db rid s e excl := by
  have hbase : b ∈ db.bookings.filter fun x =>
      x.room_id == rid && x.is_cancelled == false &&
      decide (x.start_datetime < e) && decide (x.end_datetime > s) := by
    rw [List.mem_filter]
    exact ⟨hb, by simp [hroom, hnc, hov1, hov2]⟩
  unfold conflictQuery
  dsimp only
  cases excl with
  | none => exact hbase
  | some eid =>
    dsimp only
    by_cases h0 : eid = 0
    · subst h0
      rw [if_pos (by decide : (((0:Int) == 0) = true))]
      exact hbase
    · have h0f : (eid == 0) = false := by simpa using h0
      rw [if_neg (by simp [h0f])]
      rw [List.mem_filter]
      exact ⟨hbase, by simpa using hexcl eid rfl⟩

/-- An unexcluded overlapping non-cancelled booking forces an unavailable
verdict, whatever the state of the earlier checks. -/
theorem avail_false_of_conflict (db : DB) (rid : Int) (s e : Nat) (excl : Option Int)
    (b : Booking) (hb : b ∈ db.bookings) (hroom : b.room_id = rid)
    (hnc : b.is_cancelled = false) (hov1 : b.start_datetime < e)
    (hov2 : s < b.end_datetime)
    (hexcl : ∀ eid, excl = some eid → b.id ≠ eid) :
    (check_room_availability db rid s e excl).is_available = false := by
  have hmem := mem_conflictQuery_of db rid s e excl b hb hroom hnc hov1 hov2 hexcl
  have hne := List.ne_nil_of_mem hmem
  unfold check_room_availability
  cases hf : db.rooms.find? (fun r => r.id == rid) with
  | none => rfl
  | some room =>
    dsimp only
    by_cases ha : (!room.is_active) = true
    · rw [if_pos ha]
    · rw [if_neg ha]
      by_cases hw : (decide (timeOfDay s < room.start_time) ||
          decide (timeOfDay e > room.end_time)) = true
      · rw [if_pos hw]
      · rw [if_neg hw]
        cases hh : (conflictQuery db rid s e excl).head? with
        | some c => rfl
        | none => exact absurd (List.head?_eq_none_iff.mp hh) hne

/-- C10: `check_room_availability` is a total function (it is a Lean `def`
over arbitrary store, room id, timestamps and optional exclusion id), and on
every input its verdict and its reason agree: `is_available = true` exactly
when `reason = none` — every failure branch supplies a reason, and the
success branch supplies none. -/
theorem availability_iff_reason_none (db : DB) (rid : Int) (s e : Nat)
    (excl : Option Int) :
    (check_room_availability db rid s e excl).is_available = true ↔
    (check_room_availability db rid s e excl).reason = none := by
  unfold check_room_availability
  split
  · simp
  · split
    · simp
    · split
      · simp
      · split <;> simp

/-- C1: on a request that passes the existence, active and operating-hours
checks, `check_room_availability` reports a conflict (`is_available = false`)
exactly when some non-cancelled booking of the room, other than the one named
by the exclusion id, satisfies `start < proposedEnd` and
`end > proposedStart`; bookings merely touching at an endpoint never count,
and with no such booking the verdict is available. The hypothesis that stored
ids are positive reflects the store's auto-assigned primary keys, which the
source's truthiness test on `exclude_booking_id` relies on. -/
theorem checkAvailability_conflict_iff_overlap (db : DB) (rid : Int) (s e : Nat)
    (excl : Option Int) (room : Room)
    (hpos : ∀ b ∈ db.bookings, 0 < b.id)
    (hfind : db.rooms.find? (fun r => r.id == rid) = some room)
    (hact : room.is_active = true)
    (hs : room.start_time ≤ timeOfDay s) (he : timeOfDay e ≤ room.end_time) :
    (check_room_availability db rid s e excl).is_available = false ↔
    ∃ b ∈ db.bookings, b.room_id = rid ∧ b.is_cancelled = false ∧
      b.start_datetime < e ∧ s < b.end_datetime ∧
      ∀ eid, excl = some eid → b.id ≠ eid := by
  have h1 : (!room.is_active) = false := by simp [hact]
  have h2 : (decide (timeOfDay s < room.start_time) ||
      decide (timeOfDay e > room.end_time)) = false := by
    simp only [Bool.or_eq_false_iff, decide_eq_false_iff_not, not_lt, gt_iff_lt]
    exact ⟨hs, he⟩
  unfold check_room_availability
  rw [hfind]
  simp only [h1, h2, Bool.false_eq_true, if_false]
  cases hh : (conflictQuery db rid s e excl).head? with
  | some b =>
    simp only [true_iff]
    have hb : b ∈ conflictQuery db rid s e excl := List.mem_of_mem_head? hh
    exact ⟨b, (mem_conflictQuery db rid s e excl hpos b).mp hb⟩
  | none =>
    simp only [Bool.true_eq_false, false_iff, not_exists]
    rintro b ⟨hb, h3, h4, h5, h6, h7⟩
    have : b ∈ conflictQuery db rid s e excl :=
      (mem_conflictQuery db rid s e excl hpos b).mpr ⟨hb, h3, h4, h5, h6, h7⟩
    rw [List.head?_eq_none_iff.mp hh] at this
    exact absurd this (List.not_mem_nil b)

/-- Witness for C1: on the sample store, re-requesting the booked 09:00-10:00
slot is reported as a conflict. -/
theorem checkAvailability_conflict_iff_overlap_witness :
    (check_room_availability wDB 1 540 600 none).is_available = false :=
  (checkAvailability_conflict_iff_overlap wDB 1 540 600 none wRoom (by decide)
      (by decide) (by decide) (by decide) (by decide)).mpr
    ⟨wBooking1, by decide, by decide, by decide, by decide, by decide,
      fun eid h => nomatch h⟩

/-- C2: for every request on an existing active room whose start time-of-day
is before the operating-start or whose end time-of-day is after the
operating-end, the returned reason is the outside-operating-hours reason
reporting the window — unconditionally on the booking table, so even when a
non-cancelled overlapping booking also exists: the operating-hours check
short-circuits before the overlap check. -/
theorem outside_hours_reported_first (db : DB) (rid : Int) (s e : Nat)
    (excl : Option Int) (room : Room)
    (hfind : db.rooms.find? (fun r => r.id == rid) = some room)
    (hact : room.is_active = true)
    (hout : timeOfDay s < room.start_time ∨ room.end_time < timeOfDay e) :
    (check_room_availability db rid s e excl).reason =
      some (AvailReason.outsideHours room.start_time room.end_time) ∧
    (check_room_availability db rid s e excl).is_available = false := by
  have h1 : (!room.is_active) = false := by simp [hact]
  have h2 : (decide (timeOfDay s < room.start_time) ||
      decide (timeOfDay e > room.end_time)) = true := by
    rcases hout with h | h <;> simp [h]
  unfold check_room_availability
  rw [hfind]
  simp only [h1, h2, Bool.false_eq_true, if_false, if_true]
  exact ⟨trivial, trivial⟩

/-- Witness for C2: requesting 07:00-09:30 on the 08:00-18:00 sample room —
a range that also overlaps the existing 09:00-10:00 booking — is refused for
being outside operating hours, not for the overlap. -/
theorem outside_hours_reported_first_witness :
    (check_room_availability wDB 1 420 570 none).reason =
      some (AvailReason.outsideHours 480 1080) ∧
    (check_room_availability wDB 1 420 570 none).is_available = false :=
  outside_hours_reported_first wDB 1 420 570 none wRoom (by decide) (by decide)
    (Or.inl (by decide))

/-- C3 (refuted — code bug): `update_booking` can store a booking whose end
timestamp is strictly before its start timestamp. `BookingUpdate` registers
no end-after-start validator (unlike `BookingCreate`), and
`check_room_availability` never compares the proposed end against the
proposed start, so moving the sample booking to start 15:00 / end 14:00 —
both inside the operating window, no other booking to conflict with — is
accepted and persisted with `end_datetime < start_datetime`. -/
theorem update_booking_stores_inverted_range :
    update_booking wDB 99 1 lateShift =
      .ok ({ wDB with bookings := [invertedRow] }, invertedRow) ∧
    invertedRow.end_datetime < invertedRow.start_datetime :=
  ⟨by rfl, by decide⟩

/-- C4 (refuted — code bug): `create_room` accepts and stores a room whose
capacity is 0 and whose end time-of-day is before its start time-of-day and
returns it, because `RoomCreate.capacity_must_be_positive` and
`RoomCreate.endtime_after_start_time` are written in the source but never
registered as pydantic validators, so no InvalidSchedule rejection exists. -/
theorem create_room_stores_invalid_schedule :
    create_room emptyDB 7 5 invalidRoom =
      .ok ({ emptyDB with rooms := [storedInvalidRoom] }, storedInvalidRoom) ∧
    storedInvalidRoom.capacity ≤ 0 ∧
    storedInvalidRoom.end_time ≤ storedInvalidRoom.start_time :=
  ⟨by rfl, by decide, by decide⟩

/-- C5: updating a non-cancelled booking with a patch touching the time
range, whose effective range (patched value, or existing value for the
unpatched side) overlaps another non-cancelled booking of the same room,
fails with the update-conflict error, and the store is left exactly as it
was: no field of any booking, the time range and last-update timestamp
included, is touched. -/
theorem update_conflict_rejected_unchanged (db : DB) (now : Nat) (bid : Int)
    (u : BookingUpdate) (B b2 : Booking)
    (hfind : db.bookings.find? (fun b => b.id == bid) = some B)
    (hnc : B.is_cancelled = false)
    (htime : u.start_datetime.isSome = true ∨ u.end_datetime.isSome = true)
    (hb2 : b2 ∈ db.bookings) (hbid : b2.id ≠ B.id) (hroom : b2.room_id = B.room_id)
    (hnc2 : b2.is_cancelled = false)
    (hov1 : b2.start_datetime < u.end_datetime.getD B.end_datetime)
    (hov2 : u.start_datetime.getD B.start_datetime < b2.end_datetime) :
    (∃ r, update_booking db now bid u = .error (BookingError.updateConflict r)) ∧
    update_booking_db db now bid u = db := by
  have havail : (check_room_availability db B.room_id
      (u.start_datetime.getD B.start_datetime) (u.end_datetime.getD B.end_datetime)
      (some B.id)).is_available = false := by
    refine avail_false_of_conflict db B.room_id _ _ (some B.id) b2 hb2 hroom hnc2
      hov1 hov2 ?_
    rintro eid heq
    injection heq with h
    subst h
    exact hbid
  have ht : (u.start_datetime.isSome || u.end_datetime.isSome) = true := by
    rcases htime with h | h <;> simp [h]
  have hupd : update_booking db now bid u = .error (BookingError.updateConflict
      (check_room_availability db B.room_id
        (u.start_datetime.getD B.start_datetime) (u.end_datetime.getD B.end_datetime)
        (some B.id)).reason) := by
    unfold update_booking
    rw [hfind]
    dsimp only
    rw [if_neg (by simp [hnc])]
    rw [if_pos (by simp [ht, havail])]
  refine ⟨⟨_, hupd⟩, ?_⟩
  unfold update_booking_db
  rw [hupd]

/-- Witness for C5: moving the 10:00-11:00 sample booking to start 09:30,
clashing with the 09:00-10:00 one, is rejected and the store is unchanged. -/
theorem update_conflict_rejected_unchanged_witness :
    (∃ r, update_booking wDB2 50 2 u5 = .error (BookingError.updateConflict r)) ∧
    update_booking_db wDB2 50 2 u5 = wDB2 :=
  update_conflict_rejected_unchanged wDB2 50 2 u5 wBooking2 wBooking1 (by decide)
    (by decide) (Or.inl (by decide)) (by decide) (by decide) (by decide)
    (by decide) (by decide) (by decide)

/-- C6: after a successful cancel of booking `B`, re-checking availability on
`B`'s room over `B`'s exact original half-open range succeeds, provided the
room is active, the range lies within its operating window, and no other
non-cancelled booking overlaps the range: a cancelled booking never counts in
the overlap query. -/
theorem cancel_frees_range (db : DB) (cnow : Nat) (bid : Int)
    (reason : Option String) (B : Booking) (room : Room)
    (hfind : db.bookings.find? (fun b => b.id == bid) = some B)
    (hnc : B.is_cancelled = false)
    (hroomfind : db.rooms.find? (fun r => r.id == B.room_id) = some room)
    (hact : room.is_active = true)
    (hs : room.start_time ≤ timeOfDay B.start_datetime)
    (he : timeOfDay B.end_datetime ≤ room.end_time)
    (hother : ∀ b ∈ db.bookings, b.id ≠ bid → b.is_cancelled = false →
       b.room_id = B.room_id →
       ¬(b.start_datetime < B.end_datetime ∧ B.start_datetime < b.end_datetime)) :
    ∃ db2 b2, cancel_booking db cnow bid reason = .ok (db2, b2) ∧
      (check_room_availability db2 B.room_id B.start_datetime B.end_datetime
        none).is_available = true := by
  have hBid : B.id = bid := by simpa using List.find?_some hfind
  have hcan : cancel_booking db cnow bid reason =
      .ok (db.setBooking (cancelledRow B cnow reason), cancelledRow B cnow reason) := by
    unfold cancel_booking
    rw [hfind]
    dsimp only
    rw [if_neg (by simp [hnc])]
    rfl
  refine ⟨_, _, hcan, ?_⟩
  have hq : conflictQuery (db.setBooking (cancelledRow B cnow reason))
      B.room_id B.start_datetime B.end_datetime none = [] := by
    unfold conflictQuery
    dsimp only [DB.setBooking]
    rw [List.filter_eq_nil_iff]
    intro a ha
    rcases List.mem_map.mp ha with ⟨x, hx, rfl⟩
    by_cases hxid : (x.id == (cancelledRow B cnow reason).id) = true
    · rw [if_pos hxid]
      simp [cancelledRow]
    · rw [if_neg hxid]
      have hxid2 : x.id ≠ bid := by
        rw [← hBid]
        simpa [cancelledRow] using hxid
      intro hc
      simp only [Bool.and_eq_true, beq_iff_eq, decide_eq_true_eq] at hc
      exact hother x hx hxid2 hc.1.1.2 hc.1.1.1 ⟨hc.1.2, hc.2⟩
  unfold check_room_availability
  rw [show (DB.setBooking db (cancelledRow B cnow reason)).rooms = db.rooms from rfl]
  rw [hroomfind]
  dsimp only
  rw [if_neg (by simp [hact])]
  rw [if_neg (by simp only [Bool.or_eq_true, decide_eq_true_eq, gt_iff_lt,
    not_or, not_lt]; exact ⟨hs, he⟩)]
  rw [hq]
  rfl

/-- Witness for C6: cancelling the 09:00-10:00 sample booking makes its exact
original range available again. -/
theorem cancel_frees_range_witness :
    ∃ db2 b2, cancel_booking wDB 70 1 (some "freed") = .ok (db2, b2) ∧
      (check_room_availability db2 1 540 600 none).is_available = true :=
  cancel_frees_range wDB 70 1 (some "freed") wBooking1 wRoom (by decide)
    (by decide) (by decide) (by decide) (by decide) (by decide) (by decide)

/-- C7: on a booking already in the cancelled state, `update_booking` fails
with the cannot-edit-cancelled error and `cancel_booking` fails with the
already-cancelled error, and in both cases the store is left unchanged: a
booking never leaves the cancelled state, so the cancellation metadata set by
the single successful cancel is never overwritten. -/
theorem cancelled_booking_immutable (db : DB) (now now2 : Nat) (bid : Int)
    (u : BookingUpdate) (r : Option String) (B : Booking)
    (hfind : db.bookings.find? (fun b => b.id == bid) = some B)
    (hc : B.is_cancelled = true) :
    update_booking db now bid u = .error BookingError.cannotEditCancelled ∧
    cancel_booking db now2 bid r = .error BookingError.alreadyCancelled ∧
    update_booking_db db now bid u = db ∧
    cancel_booking_db db now2 bid r = db := by
  have hu : update_booking db now bid u = .error BookingError.cannotEditCancelled := by
    unfold update_booking
    rw [hfind]
    simp [hc]
  have hca : cancel_booking db now2 bid r = .error BookingError.alreadyCancelled := by
    unfold cancel_booking
    rw [hfind]
    simp [hc]
  refine ⟨hu, hca, ?_, ?_⟩
  · unfold update_booking_db
    rw [hu]
  · unfold cancel_booking_db
    rw [hca]

/-- Witness for C7: the cancelled sample booking can be neither edited nor
re-cancelled, and the store stays as it was. -/
theorem cancelled_booking_immutable_witness :
    update_booking wDB7 80 3 u7 = .error BookingError.cannotEditCancelled ∧
    cancel_booking wDB7 81 3 none = .error BookingError.alreadyCancelled ∧
    update_booking_db wDB7 80 3 u7 = wDB7 ∧
    cancel_booking_db wDB7 81 3 none = wDB7 :=
  cancelled_booking_immutable wDB7 80 81 3 u7 none wCancelled (by decide)
    (by decide)

/-- C8: a create request against an existing active room asking for more
participants than the room's capacity fails with the capacity-exceeded error
carrying exactly the participant count and the room capacity (the numbers the
source's message embeds), and the store is unchanged: no booking record is
created. -/
theorem create_capacity_exceeded_rejected (db : DB) (new_id : Int) (now : Nat)
    (bc : BookingCreate) (room : Room)
    (hfind : db.rooms.find? (fun r => r.id == bc.room_id) = some room)
    (hact : room.is_active = true)
    (hcap : room.capacity < bc.participant_count) :
    create_booking db new_id now bc =
      .error (BookingError.capacityExceeded bc.participant_count room.capacity) ∧
    create_booking_db db new_id now bc = db := by
  have hc : create_booking db new_id now bc =
      .error (BookingError.capacityExceeded bc.participant_count room.capacity) := by
    unfold create_booking
    rw [hfind]
    simp [hact, hcap]
  refine ⟨hc, ?_⟩
  unfold create_booking_db
  rw [hc]

/-- Witness for C8: booking the capacity-6 sample room for 7 people fails
with the error carrying 7 and 6, and nothing is stored. -/
theorem create_capacity_exceeded_rejected_witness :
    create_booking wDB 9 0 bigMeeting =
      .error (BookingError.capacityExceeded 7 6) ∧
    create_booking_db wDB 9 0 bigMeeting = wDB :=
  create_capacity_exceeded_rejected wDB 9 0 bigMeeting wRoom (by decide)
    (by decide) (by decide)

/-- C9: for an existing room, `delete_room` fails exactly when some
non-cancelled booking of the room starts strictly after the current instant —
and then the store (hence the room's active flag) is untouched; with no such
booking it succeeds, keeping every booking row, keeping every room row, and
clearing exactly the targeted room's active flag. -/
theorem delete_room_future_booking_guard (db : DB) (now : Nat) (rid : Int)
    (room : Room)
    (hfind : db.rooms.find? (fun r => r.id == rid) = some room) :
    ((∃ b ∈ db.bookings, b.room_id = rid ∧ now < b.start_datetime ∧
        b.is_cancelled = false) →
      (∃ n, 0 < n ∧ delete_room db now rid = .error (RoomError.hasFutureBookings n)) ∧
      delete_room_db db now rid = db) ∧
    ((∀ b ∈ db.bookings, ¬(b.room_id = rid ∧ now < b.start_datetime ∧
        b.is_cancelled = false)) →
      ∃ db2, delete_room db now rid = .ok (db2, true) ∧
        db2.bookings = db.bookings ∧
        db2.rooms = db.rooms.map (fun r =>
          if r.id == rid then { r with is_active := false } else r) ∧
        { room with is_active := false } ∈ db2.rooms) := by
  constructor
  · rintro ⟨b, hb, hrm, hfut, hnc⟩
    have hmem : b ∈ db.bookings.filter fun x =>
        x.room_id == rid && decide (x.start_datetime > now) && x.is_cancelled == false := by
      rw [List.mem_filter]
      exact ⟨hb, by simp [hrm, hfut, hnc]⟩
    have hlen : 0 < (db.bookings.filter fun x =>
        x.room_id == rid && decide (x.start_datetime > now) &&
        x.is_cancelled == false).length :=
      List.length_pos.mpr (List.ne_nil_of_mem hmem)
    have hdel : delete_room db now rid = .error (RoomError.hasFutureBookings
        (db.bookings.filter fun x =>
          x.room_id == rid && decide (x.start_datetime > now) &&
          x.is_cancelled == false).length) := by
      unfold delete_room
      rw [hfind]
      dsimp only
      rw [if_pos hlen]
    refine ⟨⟨_, hlen, hdel⟩, ?_⟩
    unfold delete_room_db
    rw [hdel]
  · intro hnone
    have hq : (db.bookings.filter fun x =>
        x.room_id == rid && decide (x.start_datetime > now) &&
        x.is_cancelled == false) = [] := by
      rw [List.filter_eq_nil_iff]
      intro a ha hc
      simp only [Bool.and_eq_true, beq_iff_eq, decide_eq_true_eq, gt_iff_lt] at hc
      exact hnone a ha ⟨hc.1.1, hc.1.2, hc.2⟩
    have hdel : delete_room db now rid = .ok ({ db with rooms := db.rooms.map fun r =>
        if r.id == rid then { r with is_active := false } else r }, true) := by
      unfold delete_room
      rw [hfind]
      dsimp only
      rw [hq]
      rw [if_neg (by simp)]
    refine ⟨_, hdel, rfl, rfl, ?_⟩
    have hroommem : room ∈ db.rooms := List.mem_of_find?_eq_some hfind
    have hroomid : (room.id == rid) = true := by simpa using List.find?_some hfind
    have hmm := List.mem_map_of_mem (fun r =>
      if r.id == rid then { r with is_active := false } else r) hroommem
    dsimp only at hmm
    rw [if_pos hroomid] at hmm
    exact hmm

/-- Witness for C9: with the sample booking still in the future (now = 100)
deactivation fails and the store is untouched; once it is past (now = 2000)
deactivation succeeds, keeps all rows and clears the room's active flag. -/
theorem delete_room_future_booking_guard_witness :
    ((∃ n, 0 < n ∧ delete_room wDB 100 1 = .error (RoomError.hasFutureBookings n)) ∧
      delete_room_db wDB 100 1 = wDB) ∧
    (∃ db2, delete_room wDB 2000 1 = .ok (db2, true) ∧
      db2.bookings = wDB.bookings ∧
      db2.rooms = wDB.rooms.map (fun r =>
        if r.id == 1 then { r with is_active := false } else r) ∧
      { wRoom with is_active := false } ∈ db2.rooms) :=
  ⟨(delete_room_future_booking_guard wDB 100 1 wRoom (by decide)).1
      ⟨wBooking1, by decide, by decide, by decide, by decide⟩,
   (delete_room_future_booking_guard wDB 2000 1 wRoom (by decide)).2 (by decide)⟩

end MeetingBooking
